import Mathlib

/-
Shallow embedding of the NHANES biomarker Shiny application (files
apptest.py and ShinyApp/apptest.py).  The embedding covers the request-time
core: the inner join of the biomarker table with the label table, the age,
disease and gender filters, the per-group descriptive statistics, the gating
of the Welch test, the Cohen d effect size, and the duplicate-axis
validation of the two-axis regression view.

Conventions of the embedding:
  - pandas data frames become lists of records; a possibly missing (NaN)
    biomarker value is an Option.
  - float arithmetic is modelled by exact rationals; a NaN produced by the
    numpy pipeline (variance of a singleton via ddof 1, division by a zero
    sample count) is modelled by none of an Option, and the NaN-propagation
    of the float operations is modelled by none-propagating operations.
  - square roots live in the reals, so the effect-size value is an
    Option of a real.
  - a normal return of a render function becomes a plain constructor; an
    uncaught Python exception escaping the function becomes Except.error.
-/

namespace ShinyApp

/-! ### Data model: source tables and the joined cohort -/

/-- Row of the biomarker table as selected by the single-axis views:
the SEQN identifier, the selected biomarker column (possibly missing),
the RIAGENDR gender code and the RIDAGEYR age in years. -/
structure BioRow where
  seqn : ℤ
  biomarkerX : Option ℚ
  riagendr : ℤ
  ridageyr : ℤ
deriving DecidableEq, Repr

/-- Row of the label table: the id client identifier and the selected
binary heart-disease indicator column. -/
structure LabelRow where
  idClient : ℤ
  label : ℤ
deriving DecidableEq, Repr

/-- Row of the merged cohort after the rename step: Biomarker X,
Gender, the RIDAGEYR age column and Heart Disease. -/
structure CohortRow where
  seqn : ℤ
  biomarkerX : Option ℚ
  gender : ℤ
  age : ℤ
  heartDisease : ℤ
deriving DecidableEq, Repr

/-- Inner join of pd.merge on SEQN and id client: one output row per
matching pair of input rows, in left-table order. -/
def innerJoin (bio : List BioRow) (lab : List LabelRow) : List CohortRow :=
  bio.flatMap fun b =>
    (lab.filter fun l => l.idClient == b.seqn).map fun l =>
      ⟨b.seqn, b.biomarkerX, b.riagendr, b.ridageyr, l.label⟩

/-! ### Filter pipeline -/

/-- The seven choices of the age group selector. -/
inductive AgeGroup
  | allAges
  | a20_30
  | a30_40
  | a40_50
  | a50_60
  | a60_70
  | a70_80
deriving DecidableEq, Repr

/-- The age bounds dictionary of kde plot: no bounds for All Ages,
decade bounds for the six bins. -/
def ageBounds : AgeGroup → Option (ℤ × ℤ)
  | AgeGroup.allAges => none
  | AgeGroup.a20_30 => some (20, 30)
  | AgeGroup.a30_40 => some (30, 40)
  | AgeGroup.a40_50 => some (40, 50)
  | AgeGroup.a50_60 => some (50, 60)
  | AgeGroup.a60_70 => some (60, 70)
  | AgeGroup.a70_80 => some (70, 80)

/-- Age filter of kde plot: keep rows whose RIDAGEYR satisfies
low less-or-equal age and age strictly below high; All Ages applies no
filtering at all. -/
def ageFilter (g : AgeGroup) (rows : List CohortRow) : List CohortRow :=
  match ageBounds g with
  | none => rows
  | some (low, high) =>
      rows.filter fun r => decide (low ≤ r.age) && decide (r.age < high)

/-- Disease filter: when the checkbox is set, keep rows whose Heart
Disease indicator equals 1. -/
def diseaseFilter (flag : Bool) (rows : List CohortRow) : List CohortRow :=
  if flag then rows.filter fun r => r.heartDisease == 1 else rows

/-- The three choices of the gender selector. -/
inductive GenderFilter
  | all
  | male
  | female
deriving DecidableEq, Repr

/-- Gender filter: Male keeps gender code 1, Female keeps gender code 2,
All applies no filtering. -/
def genderFilter (g : GenderFilter) (rows : List CohortRow) : List CohortRow :=
  match g with
  | GenderFilter.all => rows
  | GenderFilter.male => rows.filter fun r => r.gender == 1
  | GenderFilter.female => rows.filter fun r => r.gender == 2

/-! ### The kde plot path -/

/-- Outcome of the kde plot render function: either the no-data text
figure, or a density plot drawn over the final filtered cohort. -/
inductive KdeResult
  | noData (msg : String)
  | plot (cohort : List CohortRow)
deriving DecidableEq, Repr

/-- The kde plot path: merge, age filter, emptiness check with the age
message, then disease and gender filters feeding the density plot. -/
def kdePlot (bio : List BioRow) (lab : List LabelRow) (ag : AgeGroup)
    (dis : Bool) (gen : GenderFilter) : KdeResult :=
  let merged := innerJoin bio lab
  let afterAge := ageFilter ag merged
  if afterAge.isEmpty then
    KdeResult.noData "No data available for selected age group."
  else
    KdeResult.plot (genderFilter gen (diseaseFilter dis afterAge))

/-! ### Descriptive statistics and the comparison -/

/-- Arithmetic mean of np.mean and pandas mean, as an exact rational.
Only ever read on nonempty lists. -/
def qmean (xs : List ℚ) : ℚ := xs.sum / xs.length

/-- Sample variance with ddof 1 of np.var and pandas std squared.
A list of length at most one yields NaN in the source (division of zero
by zero, or an empty mean), modelled as none. -/
def svar (xs : List ℚ) : Option ℚ :=
  if xs.length ≤ 1 then none
  else some (((xs.map fun x => (x - qmean xs) ^ 2).sum) / ((xs.length : ℚ) - 1))

/-- Median of pandas median: middle element of the sorted list, or the
mean of the two middle elements. -/
def qmedian (xs : List ℚ) : ℚ :=
  let s := xs.mergeSort fun a b => a ≤ b
  if s.length % 2 = 1 then s.getD (s.length / 2) 0
  else (s.getD (s.length / 2 - 1) 0 + s.getD (s.length / 2) 0) / 2

/-- The six per-group statistics of the summary block.  The displayed
standard deviation is the square root of sampleVar, NaN when sampleVar
is none; keeping the variance keeps the record exactly computable. -/
structure GroupStats where
  count : ℕ
  mean : ℚ
  median : ℚ
  sampleVar : Option ℚ
  min : ℚ
  max : ℚ
deriving DecidableEq, Repr

/-- Build the statistics record over the non-missing values of a group. -/
def mkStats (xs : List ℚ) : GroupStats :=
  ⟨xs.length, qmean xs, qmedian xs, svar xs, (xs.min?).getD 0, (xs.max?).getD 0⟩

/-- Values of one disease-status group: select the rows of the group,
then drop the missing biomarker values, exactly as the source selects the
group and calls dropna.  The source maps indicator 1 to the Disease group
and indicator 0 to the No Disease group; any other indicator value maps to
NaN and belongs to neither group. -/
def groupValues (rows : List CohortRow) (c : ℤ) : List ℚ :=
  (rows.filter fun r => r.heartDisease == c).filterMap fun r => r.biomarkerX

/-- A group is present in the group-stats dictionary exactly when it has a
non-missing value after dropna. -/
def hasGroup (rows : List CohortRow) (c : ℤ) : Bool :=
  !(groupValues rows c).isEmpty

/-- The displayed group blocks, in the loop order Disease then No Disease;
a group whose dropna result is empty is skipped by the continue. -/
def summaryGroups (rows : List CohortRow) : List (ℤ × GroupStats) :=
  (if (groupValues rows 1).isEmpty then []
   else [(1, mkStats (groupValues rows 1))]) ++
  (if (groupValues rows 0).isEmpty then []
   else [(0, mkStats (groupValues rows 0))])

/-- Comparison part of the summary: either the insufficient-data message,
or the Welch test and effect size computed on the two dropna value lists. -/
inductive Comparison
  | insufficient (msg : String)
  | test (x1 x2 : List ℚ)
deriving DecidableEq, Repr

/-- Outcome of the summary stats render function: the no-data text, or the
group blocks together with the comparison part. -/
inductive SummaryResult
  | noData (msg : String)
  | report (groups : List (ℤ × GroupStats)) (comp : Comparison)
deriving DecidableEq, Repr

/-- The filtered cohort of summary stats: merge, then disease filter, then
gender filter.  The source selects no age column here and applies no age
filter on this path. -/
def summaryCohort (bio : List BioRow) (lab : List LabelRow) (dis : Bool)
    (gen : GenderFilter) : List CohortRow :=
  genderFilter gen (diseaseFilter dis (innerJoin bio lab))

/-- The summary stats path: group blocks, comparison gated on both groups
being present in the dictionary, and the final emptiness check that
returns the no-data message instead of the built report. -/
def summaryStats (bio : List BioRow) (lab : List LabelRow) (dis : Bool)
    (gen : GenderFilter) : SummaryResult :=
  let m := summaryCohort bio lab dis gen
  let comp : Comparison :=
    if hasGroup m 1 && hasGroup m 0 then
      Comparison.test (groupValues m 1) (groupValues m 0)
    else
      Comparison.insufficient "Insufficient data to perform statistical comparison."
  if m.isEmpty then
    SummaryResult.noData "❗ No data available for the selected filters (age group, gender, disease)."
  else
    SummaryResult.report (summaryGroups m) comp

/-! ### Effect size and test statistic -/

/-- Multiplication of an exact coefficient with a possibly-NaN value; any
float times NaN is NaN, including zero times NaN. -/
def omul (c : ℚ) (v : Option ℚ) : Option ℚ := v.map fun x => c * x

/-- NaN-propagating addition. -/
def oadd : Option ℚ → Option ℚ → Option ℚ
  | some a, some b => some (a + b)
  | _, _ => none

/-- Pooled variance, the square of the pooled standard deviation of the
source: the weighted variances divided by the total degrees of freedom.
When the divisor n1 + n2 - 2 is zero both groups are singletons, so the
numerator is already NaN; the zero-divisor branch is mapped to none. -/
def pooledVar (x1 x2 : List ℚ) : Option ℚ :=
  match oadd (omul ((x1.length : ℚ) - 1) (svar x1))
             (omul ((x2.length : ℚ) - 1) (svar x2)) with
  | none => none
  | some num =>
      if ((x1.length : ℚ) + (x2.length : ℚ) - 2) = 0 then none
      else some (num / ((x1.length : ℚ) + (x2.length : ℚ) - 2))

/-- Cohen d of the source: the mean difference over the square root of the
pooled variance when that square root is positive, NaN otherwise.  A NaN
pooled standard deviation fails the positivity test exactly as in the
float code. -/
noncomputable def cohenD (x1 x2 : List ℚ) : Option ℝ :=
  match pooledVar x1 x2 with
  | none => none
  | some q =>
      if 0 < Real.sqrt (q : ℝ) then
        some (((qmean x1 : ℝ) - (qmean x2 : ℝ)) / Real.sqrt (q : ℝ))
      else none

/-- Welch t statistic of scipy ttest ind with equal var false: the mean
difference over the square root of the summed scaled sample variances.
A size-one or empty group has NaN sample variance, hence a NaN statistic.
A zero denominator with defined variances yields a non-finite float in the
source, outside the rational-real model; it is mapped to none and is not
the subject of any claim. -/
noncomputable def welchT (x1 x2 : List ℚ) : Option ℝ :=
  match svar x1, svar x2 with
  | some v1, some v2 =>
      if 0 < Real.sqrt ((v1 / x1.length + v2 / x2.length : ℚ) : ℝ) then
        some (((qmean x1 : ℝ) - (qmean x2 : ℝ))
          / Real.sqrt ((v1 / x1.length + v2 / x2.length : ℚ) : ℝ))
      else none
  | _, _ => none

/-! ### The two-axis regression path (file ShinyApp apptest.py) -/

/-- Row of the biomarker table for the two-axis view: the named biomarker
columns are kept as an association list so a selection by name is a
lookup. -/
structure MarkerRow where
  seqn : ℤ
  values : List (String × Option ℚ)
  riagendr : ℤ
deriving DecidableEq, Repr

/-- Row of the merged two-axis cohort. -/
structure RegRow where
  seqn : ℤ
  biomarkerX : Option ℚ
  biomarkerY : Option ℚ
  gender : ℤ
  heartDisease : ℤ
deriving DecidableEq, Repr

/-- Value of a named biomarker column of a row. -/
def colValue (r : MarkerRow) (name : String) : Option ℚ :=
  (r.values.lookup name).join

/-- Inner join of the two-axis view, projecting both selected columns. -/
def regMerge (xName yName : String) (bio : List MarkerRow)
    (lab : List LabelRow) : List RegRow :=
  bio.flatMap fun b =>
    (lab.filter fun l => l.idClient == b.seqn).map fun l =>
      ⟨b.seqn, colValue b xName, colValue b yName, b.riagendr, l.label⟩

/-- Disease filter of the two-axis view. -/
def diseaseFilterR (flag : Bool) (rows : List RegRow) : List RegRow :=
  if flag then rows.filter fun r => r.heartDisease == 1 else rows

/-- Gender filter of the two-axis view. -/
def genderFilterR (g : GenderFilter) (rows : List RegRow) : List RegRow :=
  match g with
  | GenderFilter.all => rows
  | GenderFilter.male => rows.filter fun r => r.gender == 1
  | GenderFilter.female => rows.filter fun r => r.gender == 2

/-- The regression plot render function.  The duplicate-selection check
raises a ValueError before the merge; an uncaught exception escaping the
function is modelled as Except.error, a drawn plot as Except.ok carrying
the filtered cohort. -/
def regressionPlot (xName yName : String) (bio : List MarkerRow)
    (lab : List LabelRow) (dis : Bool) (gen : GenderFilter) :
    Except String (List RegRow) :=
  if xName == yName then
    Except.error "Please select different biomarkers for X and Y axes."
  else
    Except.ok (genderFilterR gen (diseaseFilterR dis (regMerge xName yName bio lab)))

/-! ### Helper lemmas -/

lemma kdePlot_eq_noData_iff (bio : List BioRow) (lab : List LabelRow)
    (ag : AgeGroup) (dis : Bool) (gen : GenderFilter) :
    kdePlot bio lab ag dis gen
        = KdeResult.noData "No data available for selected age group."
      ↔ ageFilter ag (innerJoin bio lab) = [] := by
  simp only [kdePlot]
  by_cases h : (ageFilter ag (innerJoin bio lab)).isEmpty
  · simp [h, List.isEmpty_iff.mp h]
  · rw [if_neg h]
    constructor
    · intro hEq
      exact KdeResult.noConfusion hEq
    · intro hNil
      exact absurd (by rw [hNil]; rfl) h

/-! ### Claims about the filter pipeline and the control flow -/

/-- C2: for each of the six age bins, every record surviving the age
filter satisfies low less-or-equal age and age strictly below high (the
half-open interval, 70 to 80 included), the bins carry the decade bounds
of the source dictionary, and selecting All Ages leaves the input sequence
unchanged. -/
theorem age_filter_half_open (rows : List CohortRow) :
    (∀ g low high, ageBounds g = some (low, high) →
      ∀ r ∈ ageFilter g rows, low ≤ r.age ∧ r.age < high) ∧
    ageBounds AgeGroup.a20_30 = some (20, 30) ∧
    ageBounds AgeGroup.a30_40 = some (30, 40) ∧
    ageBounds AgeGroup.a40_50 = some (40, 50) ∧
    ageBounds AgeGroup.a50_60 = some (50, 60) ∧
    ageBounds AgeGroup.a60_70 = some (60, 70) ∧
    ageBounds AgeGroup.a70_80 = some (70, 80) ∧
    ageFilter AgeGroup.allAges rows = rows := by
  refine ⟨?_, rfl, rfl, rfl, rfl, rfl, rfl, rfl⟩
  intro g low high hg r hr
  unfold ageFilter at hr
  rw [hg] at hr
  rw [List.mem_filter] at hr
  have h2 := hr.2
  simp only [Bool.and_eq_true, decide_eq_true_eq] at h2
  exact h2

def rowA30 : CohortRow := ⟨1, some 5, 1, 30, 1⟩

/-- Witness for C2 at a record of age 30: it survives the 30 to 40 bin
with the half-open bounds, All Ages is the identity, and the 20 to 30 bin
drops the record. -/
theorem age_filter_half_open_witness :
    ((30:ℤ) ≤ rowA30.age ∧ rowA30.age < 40) ∧
    ageFilter AgeGroup.allAges [rowA30] = [rowA30] ∧
    ageFilter AgeGroup.a20_30 [rowA30] = [] :=
  ⟨(age_filter_half_open [rowA30]).1 AgeGroup.a30_40 30 40 rfl rowA30 (by decide),
   (age_filter_half_open [rowA30]).2.2.2.2.2.2.2, by decide⟩

/-- C10: the kde path reports the age-group message exactly when the
cohort is empty immediately after the age filter step; All Ages applies no
age filtering, so an inner join yielding zero records is also reported
with the age-group message; in the message case the result carries no
cohort, so the disease and gender filters and the density estimate are not
run. -/
theorem kde_empty_check_after_age (bio : List BioRow) (lab : List LabelRow)
    (ag : AgeGroup) (dis : Bool) (gen : GenderFilter) :
    (kdePlot bio lab ag dis gen
        = KdeResult.noData "No data available for selected age group."
      ↔ ageFilter ag (innerJoin bio lab) = []) ∧
    ageFilter AgeGroup.allAges (innerJoin bio lab) = innerJoin bio lab ∧
    (innerJoin bio lab = [] →
      kdePlot bio lab AgeGroup.allAges dis gen
        = KdeResult.noData "No data available for selected age group.") := by
  refine ⟨kdePlot_eq_noData_iff bio lab ag dis gen, rfl, ?_⟩
  intro h
  exact (kdePlot_eq_noData_iff bio lab AgeGroup.allAges dis gen).mpr (by rw [h]; rfl)

/-- Witness for C10: a biomarker row with no matching label row gives an
empty inner join, and even under All Ages the age-group message is
reported. -/
theorem kde_empty_check_after_age_witness :
    kdePlot [⟨1, some 2, 1, 50⟩] ([] : List LabelRow) AgeGroup.allAges false GenderFilter.all
      = KdeResult.noData "No data available for selected age group." :=
  (kde_empty_check_after_age [⟨1, some 2, 1, 50⟩] [] AgeGroup.allAges false
    GenderFilter.all).2.2 (by decide)

def bioC7 : List BioRow := [⟨1, some 5, 1, 30⟩]

def labC7 : List LabelRow := [⟨1, 0⟩]

/-- C7 counterexample: with the disease filter on, the filters reduce the
density-path cohort to zero records, yet the result is a plot over the
empty cohort, not the no-data sentinel the claim requires. -/
theorem kde_empty_after_disease_not_reported :
    genderFilter GenderFilter.all
        (diseaseFilter true (ageFilter AgeGroup.allAges (innerJoin bioC7 labC7))) = [] ∧
    kdePlot bioC7 labC7 AgeGroup.allAges true GenderFilter.all = KdeResult.plot [] := by
  decide

/-- C7 amended: the summary path returns the explicit no-data sentinel
exactly when its filtered cohort is empty, without raising; the density
path returns its sentinel exactly when the cohort is empty immediately
after the age filter, and a cohort left nonempty there always proceeds to
a plot over the disease- and gender-filtered records, so emptiness
introduced by those later filters yields an empty plot rather than the
sentinel. -/
theorem empty_cohort_sentinels (bio : List BioRow) (lab : List LabelRow)
    (ag : AgeGroup) (dis : Bool) (gen : GenderFilter) :
    (summaryStats bio lab dis gen
        = SummaryResult.noData "❗ No data available for the selected filters (age group, gender, disease)."
      ↔ summaryCohort bio lab dis gen = []) ∧
    (kdePlot bio lab ag dis gen
        = KdeResult.noData "No data available for selected age group."
      ↔ ageFilter ag (innerJoin bio lab) = []) ∧
    (ageFilter ag (innerJoin bio lab) ≠ [] →
      kdePlot bio lab ag dis gen
        = KdeResult.plot (genderFilter gen (diseaseFilter dis
            (ageFilter ag (innerJoin bio lab))))) := by
  refine ⟨?_, kdePlot_eq_noData_iff bio lab ag dis gen, ?_⟩
  · simp only [summaryStats]
    by_cases h : (summaryCohort bio lab dis gen).isEmpty
    · simp [h, List.isEmpty_iff.mp h]
    · rw [if_neg h]
      constructor
      · intro hEq
        exact SummaryResult.noConfusion hEq
      · intro hNil
        exact absurd (by rw [hNil]; rfl) h
  · intro h
    simp only [kdePlot]
    rw [if_neg (by simpa [List.isEmpty_iff] using h)]

/-- Witness for C7 amended at the concrete tables of the counterexample:
the cohort is nonempty after the age filter, so the result is the plot
over the later-filtered cohort. -/
theorem empty_cohort_sentinels_witness :
    kdePlot bioC7 labC7 AgeGroup.allAges true GenderFilter.all
      = KdeResult.plot (genderFilter GenderFilter.all
          (diseaseFilter true (ageFilter AgeGroup.allAges (innerJoin bioC7 labC7)))) :=
  (empty_cohort_sentinels bioC7 labC7 AgeGroup.allAges true GenderFilter.all).2.2
    (by decide)

def bioC1 : List BioRow := [⟨1, some 5, 1, 25⟩]

def labC1 : List LabelRow := [⟨1, 1⟩]

/-- C1: the claim fails on the code.  For the request selecting the 70 to
80 age bin on a cohort whose only subject is 25 years old, the density
path filters the record out and reports the age message, while the summary
path computes its statistics over that same record: the summary path takes
no age parameter at all (its merge does not even select the age column),
so the descriptive statistics and the hypothesis test read a cohort that
the selected age filter excludes. -/
theorem summary_ignores_age_filter :
    kdePlot bioC1 labC1 AgeGroup.a70_80 false GenderFilter.all
      = KdeResult.noData "No data available for selected age group." ∧
    summaryStats bioC1 labC1 false GenderFilter.all
      = SummaryResult.report [((1:ℤ), mkStats [(5:ℚ)])]
          (Comparison.insufficient "Insufficient data to perform statistical comparison.") :=
  ⟨rfl, rfl⟩

/-! ### Claims about the group statistics and the test gating -/

lemma groupValues_ne_nil_of_rows {rows : List CohortRow} {c : ℤ}
    (h : groupValues rows c ≠ []) : rows ≠ [] := by
  intro hr
  exact h (by rw [hr]; rfl)

lemma hasGroup_eq_true_iff (rows : List CohortRow) (c : ℤ) :
    hasGroup rows c = true ↔ groupValues rows c ≠ [] := by
  simp [hasGroup, List.isEmpty_iff]

lemma mem_summaryGroups_iff (rows : List CohortRow) (c : ℤ) (s : GroupStats) :
    (c, s) ∈ summaryGroups rows ↔
      ((c = 1 ∨ c = 0) ∧ groupValues rows c ≠ [] ∧
        s = mkStats (groupValues rows c)) := by
  unfold summaryGroups
  constructor
  · intro h
    rw [List.mem_append] at h
    rcases h with h | h
    · by_cases h1 : (groupValues rows 1).isEmpty
      · rw [if_pos h1] at h
        exact absurd h (List.not_mem_nil _)
      · rw [if_neg h1] at h
        rw [List.mem_singleton, Prod.ext_iff] at h
        obtain ⟨hc, hs⟩ := h
        subst hc
        exact ⟨Or.inl rfl, fun hn => h1 (by rw [hn]; rfl), hs⟩
    · by_cases h0 : (groupValues rows 0).isEmpty
      · rw [if_pos h0] at h
        exact absurd h (List.not_mem_nil _)
      · rw [if_neg h0] at h
        rw [List.mem_singleton, Prod.ext_iff] at h
        obtain ⟨hc, hs⟩ := h
        subst hc
        exact ⟨Or.inr rfl, fun hn => h0 (by rw [hn]; rfl), hs⟩
  · rintro ⟨hc | hc, hne, hs⟩
    · subst hc
      rw [List.mem_append]
      left
      rw [if_neg fun hh => hne (List.isEmpty_iff.mp hh)]
      rw [List.mem_singleton, Prod.ext_iff]
      exact ⟨rfl, hs⟩
    · subst hc
      rw [List.mem_append]
      right
      rw [if_neg fun hh => hne (List.isEmpty_iff.mp hh)]
      rw [List.mem_singleton, Prod.ext_iff]
      exact ⟨rfl, hs⟩

/-- C6: a group block of the summary reports as count exactly the number
of non-missing biomarker values of that group in the filtered cohort
(missing values are dropped before the statistics are computed), and a
group with no non-missing value is entirely absent from the result. -/
theorem group_stats_count_and_presence (rows : List CohortRow) (c : ℤ)
    (s : GroupStats) :
    ((c, s) ∈ summaryGroups rows →
      s.count = (groupValues rows c).length ∧ groupValues rows c ≠ []) ∧
    (groupValues rows c = [] → (c, s) ∉ summaryGroups rows) := by
  constructor
  · intro hmem
    obtain ⟨-, hne, hs⟩ := (mem_summaryGroups_iff rows c s).mp hmem
    exact ⟨by rw [hs]; rfl, hne⟩
  · intro hv hmem
    obtain ⟨-, hne, -⟩ := (mem_summaryGroups_iff rows c s).mp hmem
    exact hne hv

def rowsW6 : List CohortRow :=
  [⟨1, some 5, 1, 30, 1⟩, ⟨2, none, 1, 30, 1⟩, ⟨3, some 7, 2, 30, 0⟩]

/-- Witness for C6: in a cohort where the Disease group has one present
and one missing value, the reported count is one, and a group with no
values is absent. -/
theorem group_stats_count_and_presence_witness :
    ((mkStats [(5:ℚ)]).count = (groupValues rowsW6 1).length ∧
      groupValues rowsW6 1 ≠ []) ∧
    ((5:ℤ), mkStats [(6:ℚ)]) ∉ summaryGroups rowsW6 := by
  constructor
  · apply (group_stats_count_and_presence rowsW6 1 (mkStats [(5:ℚ)])).1
    have h1 : groupValues rowsW6 1 = [(5:ℚ)] := by decide
    exact (mem_summaryGroups_iff rowsW6 1 (mkStats [(5:ℚ)])).mpr
      ⟨Or.inl rfl, by rw [h1]; exact List.cons_ne_nil _ _, by rw [h1]⟩
  · exact (group_stats_count_and_presence rowsW6 5 (mkStats [(6:ℚ)])).2 (by decide)

def noDataMsg : String :=
  "❗ No data available for the selected filters (age group, gender, disease)."

/-- C4 counterexample: on a request whose filtered cohort is empty, both
groups have zero non-missing values, yet the produced message is the
no-data sentinel of the final emptiness check, not the insufficient-data
message the claim requires. -/
theorem insufficient_message_overridden_when_empty :
    groupValues (summaryCohort [] [] false GenderFilter.all) 1 = [] ∧
    summaryStats [] [] false GenderFilter.all
      = SummaryResult.noData
          "❗ No data available for the selected filters (age group, gender, disease)." :=
  ⟨rfl, rfl⟩

/-- C4 amended: the Welch test and the effect size are computed exactly
when both disease-status groups hold at least one non-missing value after
filtering; when a group is empty while the cohort is nonempty, the
insufficient-data message is produced instead; when the cohort itself is
empty, the no-data sentinel is returned (and still no test is computed). -/
theorem test_gating (bio : List BioRow) (lab : List LabelRow) (dis : Bool)
    (gen : GenderFilter) :
    ((∃ gs, summaryStats bio lab dis gen
        = SummaryResult.report gs
            (Comparison.test (groupValues (summaryCohort bio lab dis gen) 1)
              (groupValues (summaryCohort bio lab dis gen) 0)))
      ↔ (groupValues (summaryCohort bio lab dis gen) 1 ≠ [] ∧
          groupValues (summaryCohort bio lab dis gen) 0 ≠ [])) ∧
    ((groupValues (summaryCohort bio lab dis gen) 1 = [] ∨
        groupValues (summaryCohort bio lab dis gen) 0 = []) →
      summaryCohort bio lab dis gen ≠ [] →
      summaryStats bio lab dis gen
        = SummaryResult.report (summaryGroups (summaryCohort bio lab dis gen))
            (Comparison.insufficient
              "Insufficient data to perform statistical comparison.")) ∧
    (summaryCohort bio lab dis gen = [] →
      summaryStats bio lab dis gen
        = SummaryResult.noData
            "❗ No data available for the selected filters (age group, gender, disease).") := by
  set m := summaryCohort bio lab dis gen with hm
  refine ⟨⟨?_, ?_⟩, ?_, ?_⟩
  · rintro ⟨gs, hgs⟩
    simp only [summaryStats, ← hm] at hgs
    by_cases hem : m.isEmpty
    · rw [if_pos hem] at hgs
      exact SummaryResult.noConfusion hgs
    · rw [if_neg hem] at hgs
      injection hgs with hgroups hcomp
      by_cases hg : (hasGroup m 1 && hasGroup m 0) = true
      · rw [Bool.and_eq_true] at hg
        exact ⟨(hasGroup_eq_true_iff m 1).mp hg.1, (hasGroup_eq_true_iff m 0).mp hg.2⟩
      · rw [if_neg hg] at hcomp
        exact Comparison.noConfusion hcomp
  · rintro ⟨h1, h0⟩
    have hne : m ≠ [] := groupValues_ne_nil_of_rows h1
    refine ⟨summaryGroups m, ?_⟩
    simp only [summaryStats, ← hm]
    rw [if_neg fun hh => hne (List.isEmpty_iff.mp hh)]
    rw [if_pos (show (hasGroup m 1 && hasGroup m 0) = true by
      rw [Bool.and_eq_true]
      exact ⟨(hasGroup_eq_true_iff m 1).mpr h1, (hasGroup_eq_true_iff m 0).mpr h0⟩)]
  · intro hor hne
    simp only [summaryStats, ← hm]
    rw [if_neg fun hh => hne (List.isEmpty_iff.mp hh)]
    have hg : ¬ ((hasGroup m 1 && hasGroup m 0) = true) := by
      intro hh
      rw [Bool.and_eq_true] at hh
      rcases hor with h | h
      · exact (hasGroup_eq_true_iff m 1).mp hh.1 h
      · exact (hasGroup_eq_true_iff m 0).mp hh.2 h
    rw [if_neg hg]
  · intro hnil
    simp only [summaryStats, ← hm]
    rw [if_pos (List.isEmpty_iff.mpr hnil)]

def bioW4 : List BioRow := [⟨1, some 3, 1, 40⟩, ⟨2, some 4, 2, 40⟩]

def labW4 : List LabelRow := [⟨1, 1⟩, ⟨2, 1⟩]

/-- Witness for C4 amended: a nonempty cohort whose No Disease group is
empty yields the insufficient-data report, and an empty pair of tables
yields the no-data sentinel. -/
theorem test_gating_witness :
    summaryStats bioW4 labW4 false GenderFilter.all
      = SummaryResult.report (summaryGroups (summaryCohort bioW4 labW4 false GenderFilter.all))
          (Comparison.insufficient "Insufficient data to perform statistical comparison.") ∧
    summaryStats [] [] false GenderFilter.all
      = SummaryResult.noData
          "❗ No data available for the selected filters (age group, gender, disease)." :=
  ⟨(test_gating bioW4 labW4 false GenderFilter.all).2.1 (Or.inr (by decide)) (by decide),
   (test_gating [] [] false GenderFilter.all).2.2 rfl⟩

/-! ### Claims about the inner join -/

lemma length_filter_le_one_of_nodup {α β : Type} [DecidableEq β]
    (f : α → β) (x : β) (p : α → Bool)
    (hp : ∀ a, p a = true ↔ f a = x) (xs : List α)
    (h : (xs.map f).Nodup) : (xs.filter p).length ≤ 1 := by
  induction xs with
  | nil => simp
  | cons a as ih =>
    rw [List.map_cons, List.nodup_cons] at h
    rw [List.filter_cons]
    by_cases hpa : p a = true
    · rw [if_pos hpa]
      have hfa : f a = x := (hp a).mp hpa
      have hrest : as.filter p = [] := by
        rw [List.filter_eq_nil_iff]
        intro b hb hpb
        exact h.1 (by rw [hfa, ← (hp b).mp hpb]; exact List.mem_map_of_mem f hb)
      rw [hrest]
      exact le_refl 1
    · rw [if_neg hpa]
      exact ih h.2

lemma length_filter_eq_sum_ite {β : Type} (p : β → Bool) (bs : List β) :
    (bs.filter p).length = (bs.map fun b => if p b = true then 1 else 0).sum := by
  induction bs with
  | nil => rfl
  | cons b bs ih =>
    rw [List.filter_cons, List.map_cons, List.sum_cons]
    by_cases h : p b = true
    · rw [if_pos h, if_pos h, List.length_cons, ih]
      omega
    · rw [if_neg h, if_neg h, ih]
      omega

lemma sum_filter_lengths_swap {α β : Type} (R : α → β → Bool)
    (as : List α) (bs : List β) :
    (as.map fun a => (bs.filter fun b => R a b).length).sum
      = (bs.map fun b => (as.filter fun a => R a b).length).sum := by
  induction as with
  | nil => simp
  | cons a as ih =>
    rw [List.map_cons, List.sum_cons, ih]
    have hmap : (bs.map fun b => ((a :: as).filter fun a2 => R a2 b).length)
        = bs.map fun b =>
            (if R a b = true then 1 else 0) + ((as.filter fun a2 => R a2 b).length) := by
      apply List.map_congr_left
      intro b _
      rw [List.filter_cons]
      by_cases h : R a b = true
      · rw [if_pos h, if_pos h, List.length_cons]
        omega
      · rw [if_neg h, if_neg h]
        omega
    rw [hmap, List.sum_map_add, ← length_filter_eq_sum_ite (fun b => R a b) bs]

lemma length_innerJoin (bio : List BioRow) (lab : List LabelRow) :
    (innerJoin bio lab).length
      = (bio.map fun b => (lab.filter fun l => l.idClient == b.seqn).length).sum := by
  unfold innerJoin
  rw [List.length_flatMap]
  congr 1
  apply List.map_congr_left
  intro b _
  simp [List.length_map]

lemma sum_le_length_of_le_one {α : Type} (g : α → ℕ) (xs : List α)
    (h : ∀ a ∈ xs, g a ≤ 1) : (xs.map g).sum ≤ xs.length := by
  induction xs with
  | nil => simp
  | cons a as ih =>
    rw [List.map_cons, List.sum_cons, List.length_cons]
    have ha := h a (List.mem_cons_self a as)
    have hrest := ih fun b hb => h b (List.mem_cons_of_mem a hb)
    omega

/-- C5: with subject identifiers unique within each table, the inner join
holds at most min of the two table sizes many records, and every joined
record carries a subject identifier present in both source tables. -/
theorem innerJoin_size_and_ids (bio : List BioRow) (lab : List LabelRow)
    (hb : (bio.map BioRow.seqn).Nodup) (hl : (lab.map LabelRow.idClient).Nodup) :
    (innerJoin bio lab).length ≤ min bio.length lab.length ∧
    ∀ r ∈ innerJoin bio lab,
      r.seqn ∈ bio.map BioRow.seqn ∧ r.seqn ∈ lab.map LabelRow.idClient := by
  constructor
  · rw [le_min_iff]
    constructor
    · rw [length_innerJoin]
      have hle := sum_le_length_of_le_one
        (fun b => (lab.filter fun l => l.idClient == b.seqn).length) bio
        (fun b _ => length_filter_le_one_of_nodup LabelRow.idClient b.seqn
          (fun l => l.idClient == b.seqn) (fun l => beq_iff_eq) lab hl)
      exact hle
    · rw [length_innerJoin,
        sum_filter_lengths_swap (fun b l => l.idClient == b.seqn) bio lab]
      have hle := sum_le_length_of_le_one
        (fun l => (bio.filter fun b => l.idClient == b.seqn).length) lab
        (fun l _ => length_filter_le_one_of_nodup BioRow.seqn l.idClient
          (fun b => l.idClient == b.seqn)
          (fun b => by rw [beq_iff_eq]; exact eq_comm) bio hb)
      exact hle
  · intro r hr
    unfold innerJoin at hr
    rw [List.mem_flatMap] at hr
    obtain ⟨b, hbmem, hr⟩ := hr
    rw [List.mem_map] at hr
    obtain ⟨l, hlmem, rfl⟩ := hr
    rw [List.mem_filter] at hlmem
    refine ⟨List.mem_map_of_mem BioRow.seqn hbmem, ?_⟩
    have hid : l.idClient = b.seqn := beq_iff_eq.mp hlmem.2
    show b.seqn ∈ lab.map LabelRow.idClient
    rw [← hid]
    exact List.mem_map_of_mem LabelRow.idClient hlmem.1

def bioW5 : List BioRow := [⟨1, some 1, 1, 30⟩, ⟨2, none, 2, 40⟩]

def labW5 : List LabelRow := [⟨2, 1⟩]

/-- Witness for C5 at two unique-key tables sharing one subject: the join
size is bounded by the smaller table and the joined identifier occurs in
both tables. -/
theorem innerJoin_size_and_ids_witness :
    (innerJoin bioW5 labW5).length ≤ min bioW5.length labW5.length ∧
    ((⟨2, none, 2, 40, 1⟩ : CohortRow).seqn ∈ bioW5.map BioRow.seqn ∧
      (⟨2, none, 2, 40, 1⟩ : CohortRow).seqn ∈ labW5.map LabelRow.idClient) :=
  ⟨(innerJoin_size_and_ids bioW5 labW5 (by decide) (by decide)).1,
   (innerJoin_size_and_ids bioW5 labW5 (by decide) (by decide)).2
     ⟨2, none, 2, 40, 1⟩ (by decide)⟩

/-! ### Claims about the effect size and the test statistic -/

lemma omul_none (c : ℚ) : omul c none = none := rfl

lemma oadd_none_left (v : Option ℚ) : oadd none v = none := by
  cases v <;> rfl

lemma oadd_none_right (v : Option ℚ) : oadd v none = none := by
  cases v <;> rfl

lemma svar_of_short {xs : List ℚ} (h : xs.length ≤ 1) : svar xs = none := by
  unfold svar
  rw [if_pos h]

lemma pooledVar_none_left {x1 : List ℚ} (x2 : List ℚ) (h : svar x1 = none) :
    pooledVar x1 x2 = none := by
  unfold pooledVar
  rw [h, omul_none, oadd_none_left]

lemma pooledVar_none_right (x1 : List ℚ) {x2 : List ℚ} (h : svar x2 = none) :
    pooledVar x1 x2 = none := by
  unfold pooledVar
  rw [h, omul_none, oadd_none_right]

lemma cohenD_of_pooledVar_none {x1 x2 : List ℚ} (h : pooledVar x1 x2 = none) :
    cohenD x1 x2 = none := by
  unfold cohenD
  rw [h]

/-- C3: the sign of a reported Cohen d value agrees with the sign of the
mean difference Disease minus No Disease, and a zero pooled variance (the
square of the pooled standard deviation) reports the undefined NaN value,
modelled none, never zero and never an error. -/
theorem cohen_d_sign_and_nan (x1 x2 : List ℚ) :
    (pooledVar x1 x2 = some 0 → cohenD x1 x2 = none) ∧
    (∀ d : ℝ, cohenD x1 x2 = some d →
      ((0 < d ↔ qmean x2 < qmean x1) ∧ (d < 0 ↔ qmean x1 < qmean x2) ∧
        (d = 0 ↔ qmean x1 = qmean x2))) := by
  constructor
  · intro h
    unfold cohenD
    rw [h]
    simp
  · intro d hd
    rcases hpv : pooledVar x1 x2 with _ | q
    · rw [cohenD_of_pooledVar_none hpv] at hd
      exact Option.noConfusion hd
    · unfold cohenD at hd
      rw [hpv] at hd
      have hd' : (if 0 < Real.sqrt (q : ℝ) then
          some (((qmean x1 : ℝ) - (qmean x2 : ℝ)) / Real.sqrt (q : ℝ))
          else none) = some d := hd
      clear hd
      rename' hd' => hd
      by_cases hs : 0 < Real.sqrt (q : ℝ)
      · rw [if_pos hs] at hd
        injection hd with hd
        subst hd
        have hs0 : Real.sqrt (q : ℝ) ≠ 0 := ne_of_gt hs
        refine ⟨?_, ?_, ?_⟩
        · rw [lt_div_iff₀ hs, zero_mul, sub_pos]
          exact Rat.cast_lt
        · rw [div_lt_iff₀ hs, zero_mul, sub_neg]
          exact Rat.cast_lt
        · rw [div_eq_zero_iff]
          simp only [hs0, or_false]
          rw [sub_eq_zero]
          exact Rat.cast_inj
      · rw [if_neg hs] at hd
        exact Option.noConfusion hd

/-- Witness for C3: two constant groups report the NaN effect size, and
the sample pair with means two and zero reports a positive effect size. -/
theorem cohen_d_sign_and_nan_witness :
    cohenD [(0:ℚ), 0] [(0:ℚ), 0] = none ∧
    (0 < (2:ℝ) ↔ qmean [(0:ℚ), 0] < qmean [(1:ℚ), 3]) := by
  have hm1 : qmean [(1:ℚ), 3] = 2 := by
    norm_num [qmean]
  have hm2 : qmean [(0:ℚ), 0] = 0 := by
    norm_num [qmean]
  have hs1 : svar [(1:ℚ), 3] = some 2 := by
    norm_num [svar, qmean]
  have hs2 : svar [(0:ℚ), 0] = some 0 := by
    norm_num [svar, qmean]
  have hv0 : pooledVar [(0:ℚ), 0] [(0:ℚ), 0] = some 0 := by
    unfold pooledVar
    rw [hs2]
    norm_num [omul, oadd]
  have hv : pooledVar [(1:ℚ), 3] [(0:ℚ), 0] = some 1 := by
    unfold pooledVar
    rw [hs1, hs2]
    norm_num [omul, oadd]
  have hc : cohenD [(1:ℚ), 3] [(0:ℚ), 0] = some 2 := by
    unfold cohenD
    rw [hv, hm1, hm2]
    norm_num
  exact ⟨(cohen_d_sign_and_nan [(0:ℚ), 0] [(0:ℚ), 0]).1 hv0,
    ((cohen_d_sign_and_nan [(1:ℚ), 3] [(0:ℚ), 0]).2 2 hc).1⟩

/-- C9: when both groups are nonempty and either group holds exactly one
value, the effect size and the Welch t statistic are the undefined NaN
value, modelled none; in particular the zero pooled degrees of freedom
produce a NaN, not an exception, exactly as the NaN-propagating float
pipeline of the source. -/
theorem singleton_group_nan (x1 x2 : List ℚ) (_h1 : x1 ≠ []) (_h2 : x2 ≠ [])
    (h : x1.length = 1 ∨ x2.length = 1) :
    cohenD x1 x2 = none ∧ welchT x1 x2 = none := by
  rcases h with h | h
  · have hv : svar x1 = none := svar_of_short (by omega)
    refine ⟨cohenD_of_pooledVar_none (pooledVar_none_left x2 hv), ?_⟩
    unfold welchT
    rw [hv]
  · have hv : svar x2 = none := svar_of_short (by omega)
    refine ⟨cohenD_of_pooledVar_none (pooledVar_none_right x1 hv), ?_⟩
    unfold welchT
    rw [hv]
    rcases svar x1 with _ | v1 <;> rfl

/-- Witness for C9: a singleton Disease group against a two-value group
yields NaN for both the effect size and the t statistic. -/
theorem singleton_group_nan_witness :
    cohenD [(5:ℚ)] [(1:ℚ), 2] = none ∧ welchT [(5:ℚ)] [(1:ℚ), 2] = none :=
  singleton_group_nan [(5:ℚ)] [(1:ℚ), 2] (by decide) (by decide) (Or.inl rfl)

/-! ### Claims about the two-axis validation -/

/-- C8 counterexample: the duplicate-axis condition produces the embedded
escaping exception (Except.error models the uncaught ValueError leaving
the render function toward the framework), not an in-band typed result as
the claim requires. -/
theorem duplicate_axis_raises :
    regressionPlot "A" "A" [] [] false GenderFilter.all
      = Except.error "Please select different biomarkers for X and Y axes." := rfl

/-- C8 amended: when the same biomarker is selected for both axes, the
check fires before any join executes, for every table content and filter
setting, so no partial computation occurs; the condition is surfaced as a
raised ValueError propagating out of the core function (modelled
Except.error), not as an in-band typed result. -/
theorem duplicate_axis_check_before_join (xName yName : String)
    (bio : List MarkerRow) (lab : List LabelRow) (dis : Bool)
    (gen : GenderFilter) (h : xName = yName) :
    regressionPlot xName yName bio lab dis gen
      = Except.error "Please select different biomarkers for X and Y axes." := by
  subst h
  simp [regressionPlot]

/-- Witness for C8 amended at a concrete duplicate selection over a
nonempty pair of tables. -/
theorem duplicate_axis_check_before_join_witness :
    regressionPlot "Albumin" "Albumin" [⟨1, [("Albumin", some 4)], 1⟩] [⟨1, 1⟩]
        true GenderFilter.male
      = Except.error "Please select different biomarkers for X and Y axes." :=
  duplicate_axis_check_before_join "Albumin" "Albumin"
    [⟨1, [("Albumin", some 4)], 1⟩] [⟨1, 1⟩] true GenderFilter.male rfl

end ShinyApp
